import Mathlib

/-!
Shallow embedding of the `DocumentSignature` Solidity contract and of the
backend sign/verify flows (Express routes plus `DocumentSignatureService`)
from the blockchain signature application, together with proofs of the
specified lifecycle properties.

Solidity mappings are modelled as total functions with zero-valued defaults;
`require` failures (reverts) are modelled by `Except.error`, and the
revert-discards-all-writes semantics by a `runExcept` step that keeps the
pre-state on error.  `msg.sender` and `block.timestamp` are explicit
parameters of each contract operation.
-/

namespace DocSig

/-- An EVM address, kept abstract as a string (the backend also handles
addresses as hex strings). -/
abbrev Address := String

/-- `struct Signature { bool signed; uint256 timestamp; string ipfsHash; }` -/
structure Signature where
  signed : Bool
  timestamp : Nat
  ipfsHash : String
  deriving Repr, DecidableEq

/-- Zero value of a `Signature` slot (the default of a Solidity mapping). -/
def Signature.zero : Signature := ⟨false, 0, ""⟩

/-- `struct Document { string documentHash; address[] signers; uint256 timestamp;
bool isActive; mapping(address => Signature) signatures; }` -/
structure Document where
  documentHash : String
  signers : List Address
  timestamp : Nat
  isActive : Bool
  signatures : Address → Signature

/-- Zero value of a `Document` slot. -/
def Document.zero : Document := ⟨"", [], 0, false, fun _ => Signature.zero⟩

/-- Contract storage: `mapping(string => Document) documents` and
`mapping(address => string[]) userDocuments`. -/
structure ContractState where
  documents : String → Document
  userDocuments : Address → List String

/-- The state of a freshly deployed contract: every mapping slot zero-valued. -/
def ContractState.init : ContractState := ⟨fun _ => Document.zero, fun _ => []⟩

/-- The authorization loop of `signDocument`: a first-match linear scan of the
`signers` array for `msg.sender`. -/
def authorizedScan : List Address → Address → Bool
  | [], _ => false
  | s :: rest, sender => if s = sender then true else authorizedScan rest sender

/-- The loop of `isFullySigned`: scan `signers`, returning `false` at the first
signer whose `Signature` is not `signed`. -/
def allSignedScan (sigs : Address → Signature) : List Address → Bool
  | [] => true
  | s :: rest => if (sigs s).signed = false then false else allSignedScan sigs rest

/-- The post-state of a successful `signDocument`: only the `(docHash, sender)`
signature slot is written. -/
def signOkState (st : ContractState) (sender : Address) (now : Nat)
    (docHash ipfsHash : String) : ContractState :=
  { st with
    documents := fun h =>
      if h = docHash then
        { st.documents docHash with
          signatures := fun a =>
            if a = sender then ⟨true, now, ipfsHash⟩
            else (st.documents docHash).signatures a }
      else st.documents h }

/-- `function signDocument(string _documentHash, string _signatureIpfsHash)`:
modifiers `documentExists` (`timestamp > 0`) and `documentActive`, then the
linear-scan authorization `require`, then the `Already signed` `require`,
then the signature write. -/
def signDocument (st : ContractState) (sender : Address) (now : Nat)
    (docHash ipfsHash : String) : Except String ContractState :=
  if (st.documents docHash).timestamp = 0 then
    .error "Document does not exist"
  else if (st.documents docHash).isActive = false then
    .error "Document is not active"
  else if authorizedScan (st.documents docHash).signers sender = false then
    .error "Not authorized to sign this document"
  else if ((st.documents docHash).signatures sender).signed = true then
    .error "Already signed"
  else
    .ok (signOkState st sender now docHash ipfsHash)

/-- The post-state of a successful `createDocument`: the document slot is
written (its `signatures` mapping is left as stored) and the hash is pushed
onto the caller's `userDocuments` array. -/
def createOkState (st : ContractState) (sender : Address) (now : Nat)
    (docHash : String) (requiredSigners : List Address) : ContractState :=
  { st with
    documents := fun h =>
      if h = docHash then
        { documentHash := docHash
          signers := requiredSigners
          timestamp := now
          isActive := true
          signatures := (st.documents docHash).signatures }
      else st.documents h,
    userDocuments := fun a =>
      if a = sender then st.userDocuments a ++ [docHash]
      else st.userDocuments a }

/-- `function createDocument(string _documentHash, address[] _requiredSigners)`:
`require(timestamp == 0)`, `require(length > 0)`, then the document write and
the push onto `userDocuments[msg.sender]`. -/
def createDocument (st : ContractState) (sender : Address) (now : Nat)
    (docHash : String) (requiredSigners : List Address) : Except String ContractState :=
  if (st.documents docHash).timestamp ≠ 0 then
    .error "Document already exists"
  else if requiredSigners.length = 0 then
    .error "Must have at least one signer"
  else
    .ok (createOkState st sender now docHash requiredSigners)

/-- `function isFullySigned(string _documentHash)`: `documentExists` modifier,
then the scan over `signers`. -/
def isFullySigned (st : ContractState) (docHash : String) : Except String Bool :=
  if (st.documents docHash).timestamp = 0 then
    .error "Document does not exist"
  else
    .ok (allSignedScan (st.documents docHash).signatures (st.documents docHash).signers)

/-- `function getSignature(string _documentHash, address _signer)`:
`documentExists` modifier, then the raw signature triple (zero-valued for a
signer who never signed). -/
def getSignature (st : ContractState) (docHash : String) (signer : Address) :
    Except String Signature :=
  if (st.documents docHash).timestamp = 0 then
    .error "Document does not exist"
  else
    .ok ((st.documents docHash).signatures signer)

/-- `function getDocumentSigners(string _documentHash)`: `documentExists`
modifier, then the stored `signers` array verbatim. -/
def getDocumentSigners (st : ContractState) (docHash : String) :
    Except String (List Address) :=
  if (st.documents docHash).timestamp = 0 then
    .error "Document does not exist"
  else
    .ok (st.documents docHash).signers

/-- `function getUserDocuments(address _user)`: never fails. -/
def getUserDocuments (st : ContractState) (user : Address) : List String :=
  st.userDocuments user

/-- `function revokeDocument(string _documentHash)`: `documentExists` modifier,
then `isActive = false` unconditionally — no creator check, any caller. -/
def revokeDocument (st : ContractState) (_sender : Address) (docHash : String) :
    Except String ContractState :=
  if (st.documents docHash).timestamp = 0 then
    .error "Document does not exist"
  else
    .ok { st with
      documents := fun h =>
        if h = docHash then { st.documents docHash with isActive := false }
        else st.documents h }

/-- The post-state of a successful `revokeDocument`. -/
def revokeOkState (st : ContractState) (docHash : String) : ContractState :=
  { st with
    documents := fun h =>
      if h = docHash then { st.documents docHash with isActive := false }
      else st.documents h }

/-- `function verifyDocumentSignature(string _documentHash, address _signer)`:
a view with no `require` — a missing document yields the explicit
`(false, 0, false)` triple; otherwise `(sig.signed, sig.timestamp, doc.isActive)`. -/
def verifyDocumentSignature (st : ContractState) (docHash : String)
    (signer : Address) : Bool × Nat × Bool :=
  if (st.documents docHash).timestamp = 0 then
    (false, 0, false)
  else
    (((st.documents docHash).signatures signer).signed,
     ((st.documents docHash).signatures signer).timestamp,
     (st.documents docHash).isActive)

/-- EVM revert semantics: a failed call leaves storage exactly as it was. -/
def runExcept (st : ContractState) : Except String ContractState → ContractState
  | .ok st' => st'
  | .error _ => st

/-- State transition of one `signDocument` transaction (revert keeps state). -/
def signStep (st : ContractState) (sender : Address) (now : Nat)
    (docHash ipfsHash : String) : ContractState :=
  runExcept st (signDocument st sender now docHash ipfsHash)

/-- A mutating transaction against the contract. -/
inductive Op where
  | create (sender : Address) (now : Nat) (docHash : String) (signers : List Address)
  | sign (sender : Address) (now : Nat) (docHash ipfsHash : String)
  | revoke (sender : Address) (docHash : String)

/-- Apply one transaction (a revert leaves storage unchanged). -/
def step (st : ContractState) : Op → ContractState
  | .create sender now docHash signers =>
      runExcept st (createDocument st sender now docHash signers)
  | .sign sender now docHash ipfsHash =>
      runExcept st (signDocument st sender now docHash ipfsHash)
  | .revoke sender docHash =>
      runExcept st (revokeDocument st sender docHash)

/-- Apply a sequence of transactions in submission order. -/
def run (st : ContractState) : List Op → ContractState
  | [] => st
  | op :: ops => run (step st op) ops

/-!
Backend layer.  `DocumentSignatureService` wraps the contract behind
`ethers.Contract(address, abi, this.wallet)` where `this.wallet` is the single
`ethers.Wallet(config.privateKey)` built at construction: every transaction the
service submits is signed by that one wallet, so the contract observes
`msg.sender = serviceAddr` (the wallet's address) on every mutating call,
whatever user the HTTP request was authenticated as.  Reads are views and are
sender-independent.  Every service method catches and returns failures as
structured `success/error` results.
-/

/-- JavaScript `String.prototype.toLowerCase` restricted to the character
list (addresses are ASCII hex strings). -/
def lowerStr (s : String) : String := ⟨s.data.map Char.toLower⟩

/-- Result shape of `DocumentSignatureService.signDocument`. -/
structure SvcSignResult where
  success : Bool
  error : Option String
  deriving Repr, DecidableEq

/-- `DocumentSignatureService.signDocument(documentHash, signatureMetadata)`:
submits the contract call from the service wallet (`serviceAddr`), returning a
structured result and the resulting ledger state. -/
def serviceSignDocument (st : ContractState) (serviceAddr : Address) (now : Nat)
    (docHash meta : String) : SvcSignResult × ContractState :=
  match signDocument st serviceAddr now docHash meta with
  | .ok st' => (⟨true, none⟩, st')
  | .error e => (⟨false, some e⟩, st)

/-- `DocumentSignatureService.getRequiredSigners`: a view call, failure as data. -/
def serviceGetRequiredSigners (st : ContractState) (docHash : String) :
    Except String (List Address) :=
  getDocumentSigners st docHash

/-- `DocumentSignatureService.getSignatureStatus`: a view call, failure as data. -/
def serviceGetSignatureStatus (st : ContractState) (docHash : String)
    (signer : Address) : Except String Signature :=
  getSignature st docHash signer

/-- `DocumentSignatureService.verifySignature`: wraps the contract view
`verifyDocumentSignature`, which never reverts, so the result is always a
success triple. -/
def serviceVerifySignature (st : ContractState) (docHash : String)
    (signer : Address) : Except String (Bool × Nat × Bool) :=
  .ok (verifyDocumentSignature st docHash signer)

/-- HTTP-level outcome of `POST /api/signatures/:documentHash/sign`. -/
inductive SignFlowOutcome where
  /-- 404 `Document not found` -/
  | notFound
  /-- 403 `Not authorized to sign this document` -/
  | notAuthorized
  /-- 409 `Document already signed by this address` -/
  | alreadySigned (signedAt : Nat)
  /-- 500 `Failed to sign document on blockchain` -/
  | blockchainFailure (details : String)
  /-- 200, whose body reports `signer: signerAddress` — the authenticated user. -/
  | accepted (signer : Address)
  deriving Repr, DecidableEq

/-- The mutation step of the sign route: call
`signatureService.signDocument(documentHash, ipfsHash)` and translate the
structured result; on success the response attributes the signature to the
authenticated `userAddr`. -/
def signFlowMutate (st : ContractState) (serviceAddr userAddr : Address)
    (now : Nat) (docHash ipfsRef : String) : SignFlowOutcome × ContractState :=
  match serviceSignDocument st serviceAddr now docHash ipfsRef with
  | (r, st') =>
    if r.success then (.accepted userAddr, st')
    else (.blockchainFailure (r.error.getD ""), st')

/-- The sign route (`router.post /:documentHash/sign`): authorization check
against the authenticated user's address (case-insensitive scan of the signers
list), idempotency check via `getSignatureStatus`, then the ledger mutation
through the service (which transacts as the fixed service wallet).
`ipfsRef` stands for the metadata reference obtained from the best-effort IPFS
upload (empty when absent or failed). -/
def signFlow (st : ContractState) (serviceAddr userAddr : Address) (now : Nat)
    (docHash ipfsRef : String) : SignFlowOutcome × ContractState :=
  match serviceGetRequiredSigners st docHash with
  | .error _ => (.notFound, st)
  | .ok signers =>
    if ¬ (signers.any fun s => lowerStr s == lowerStr userAddr) then
      (.notAuthorized, st)
    else
      match serviceGetSignatureStatus st docHash userAddr with
      | .ok sig =>
        if sig.signed then (.alreadySigned sig.timestamp, st)
        else signFlowMutate st serviceAddr userAddr now docHash ipfsRef
      | .error _ => signFlowMutate st serviceAddr userAddr now docHash ipfsRef

/-- One element of the verify route's `verificationResults` array. -/
structure VerifyEntry where
  signer : Address
  isValid : Bool
  signedAt : Nat
  documentActive : Bool
  errMsg : Option String
  deriving Repr, DecidableEq

/-- Per-signer entry construction in the verify route: a successful service
read is copied through; a failed read (or a thrown error) becomes an entry
with `isValid = false`, `signedAt = 0`, `documentActive = false` and the error
message attached — the loop never aborts. -/
def verifyEntryFor (ver : Address → Except String (Bool × Nat × Bool))
    (signer : Address) : VerifyEntry :=
  match ver signer with
  | .ok (iv, sa, da) => ⟨signer, iv, sa, da, none⟩
  | .error e => ⟨signer, false, 0, false, some e⟩

/-- Response body of `POST /api/signatures/:documentHash/verify`. -/
structure VerifyResponse where
  isFullyValid : Bool
  validSignatures : Nat
  totalSigners : Nat
  verificationResults : List VerifyEntry
  deriving Repr, DecidableEq

/-- The verify route (`router.post /:documentHash/verify`): read the required
signers (404 on failure), build one verification entry per signer, count the
valid ones, and set `isFullyValid = (validSignatures === totalSigners)`. -/
def verifyFlow (signersResult : Except String (List Address))
    (ver : Address → Except String (Bool × Nat × Bool)) :
    Except String VerifyResponse :=
  match signersResult with
  | .error e => .error e
  | .ok signers =>
    let results := signers.map (verifyEntryFor ver)
    let valid := (results.filter fun r => r.isValid).length
    .ok ⟨valid == signers.length, valid, signers.length, results⟩

/-- The verify route wired to the ledger through the service reads, as deployed. -/
def verifyFlowOnLedger (st : ContractState) (docHash : String) :
    Except String VerifyResponse :=
  verifyFlow (serviceGetRequiredSigners st docHash) (serviceVerifySignature st docHash)

/-!
Concrete scenario states used as witnesses: the document `doc1` with the single
declared signer `0xaaaa`, created by `0xcccc` at time 1, then signed at time 2,
then revoked by `0xbbbb`.
-/

/-- Ledger after `createDocument("doc1", ["0xaaaa"])` by `0xcccc` at time 1. -/
def demoCreated : ContractState :=
  run ContractState.init [.create "0xcccc" 1 "doc1" ["0xaaaa"]]

/-- `demoCreated` after `signDocument("doc1", "")` by `0xaaaa` at time 2. -/
def demoSigned : ContractState :=
  run ContractState.init
    [.create "0xcccc" 1 "doc1" ["0xaaaa"], .sign "0xaaaa" 2 "doc1" ""]

/-- `demoSigned` after `revokeDocument("doc1")` by `0xbbbb`. -/
def demoRevoked : ContractState :=
  run ContractState.init
    [.create "0xcccc" 1 "doc1" ["0xaaaa"], .sign "0xaaaa" 2 "doc1" "",
     .revoke "0xbbbb" "doc1"]

/-- Ledger for the attribution bug: `docb` declares only the user `0xaaaa`. -/
def bugLedger : ContractState :=
  run ContractState.init [.create "0xcccc" 1 "docb" ["0xaaaa"]]

/-- Ledger where the service wallet `0xbbbb` also happens to be declared. -/
def bugLedgerBoth : ContractState :=
  run ContractState.init [.create "0xcccc" 1 "docb" ["0xaaaa", "0xbbbb"]]

/-- The ledger state left by the sign flow on `bugLedgerBoth` with service
wallet `0xbbbb` and authenticated user `0xaaaa`. -/
def bugResultState : ContractState :=
  (signFlow bugLedgerBoth "0xbbbb" "0xaaaa" 2 "docb" "").2

/-! Helper characterizations of the contract operations. -/

theorem authorizedScan_iff (l : List Address) (a : Address) :
    authorizedScan l a = true ↔ a ∈ l := by
  induction l with
  | nil => simp [authorizedScan]
  | cons s rest ih =>
    by_cases h : s = a
    · simp [authorizedScan, h]
    · simp [authorizedScan, h, ih, Ne.symm h]

theorem allSignedScan_iff (sigs : Address → Signature) (l : List Address) :
    allSignedScan sigs l = true ↔ ∀ a ∈ l, (sigs a).signed = true := by
  induction l with
  | nil => simp [allSignedScan]
  | cons s rest ih =>
    by_cases h : (sigs s).signed
    · simp [allSignedScan, h, ih]
    · simp [allSignedScan, Bool.eq_false_iff.mpr h, h]

theorem signDocument_ok_iff (st st1 : ContractState) (c : Address) (now : Nat)
    (docHash ref : String) :
    signDocument st c now docHash ref = .ok st1 ↔
      ((st.documents docHash).timestamp ≠ 0 ∧
       (st.documents docHash).isActive = true ∧
       authorizedScan (st.documents docHash).signers c = true ∧
       ((st.documents docHash).signatures c).signed = false ∧
       st1 = signOkState st c now docHash ref) := by
  unfold signDocument
  split
  case isTrue h => simp [h]
  case isFalse h =>
    split
    case isTrue h2 => simp [h2]
    case isFalse h2 =>
      split
      case isTrue h3 => simp [h3]
      case isFalse h3 =>
        split
        case isTrue h4 => simp [h4]
        case isFalse h4 =>
          have ha := eq_true_of_ne_false h2
          have hs := eq_true_of_ne_false h3
          have hn := eq_false_of_ne_true h4
          simp [h, ha, hs, hn, eq_comm]

theorem signDocument_error_iff (st : ContractState) (c : Address) (now : Nat)
    (docHash ref : String) :
    (∃ e, signDocument st c now docHash ref = .error e) ↔
      ((st.documents docHash).timestamp = 0 ∨
       (st.documents docHash).isActive = false ∨
       authorizedScan (st.documents docHash).signers c = false ∨
       ((st.documents docHash).signatures c).signed = true) := by
  unfold signDocument
  split
  case isTrue h => simp [h]
  case isFalse h =>
    split
    case isTrue h2 => simp [h2]
    case isFalse h2 =>
      split
      case isTrue h3 => simp [h3]
      case isFalse h3 =>
        split
        case isTrue h4 => simp [h4]
        case isFalse h4 =>
          have ha := eq_true_of_ne_false h2
          have hs := eq_true_of_ne_false h3
          have hn := eq_false_of_ne_true h4
          simp [h, ha, hs, hn]

theorem createDocument_ok_iff (st st1 : ContractState) (c : Address) (now : Nat)
    (docHash : String) (signers : List Address) :
    createDocument st c now docHash signers = .ok st1 ↔
      ((st.documents docHash).timestamp = 0 ∧ signers ≠ [] ∧
       st1 = createOkState st c now docHash signers) := by
  unfold createDocument
  split
  case isTrue h => simp [h]
  case isFalse h =>
    split
    case isTrue h2 => simp [List.length_eq_zero.mp h2]
    case isFalse h2 =>
      have hs : signers ≠ [] := fun hq => h2 (by simp [hq])
      simp [not_not.mp h, hs, eq_comm]

theorem createDocument_error_iff (st : ContractState) (c : Address) (now : Nat)
    (docHash : String) (signers : List Address) :
    (∃ e, createDocument st c now docHash signers = .error e) ↔
      ((st.documents docHash).timestamp ≠ 0 ∨ signers = []) := by
  unfold createDocument
  split
  case isTrue h => simp [h]
  case isFalse h =>
    split
    case isTrue h2 => simp [List.length_eq_zero.mp h2]
    case isFalse h2 =>
      have hs : signers ≠ [] := fun hq => h2 (by simp [hq])
      simp [not_not.mp h, hs]

theorem revokeDocument_ok_iff (st st1 : ContractState) (sender : Address)
    (docHash : String) :
    revokeDocument st sender docHash = .ok st1 ↔
      ((st.documents docHash).timestamp ≠ 0 ∧ st1 = revokeOkState st docHash) := by
  unfold revokeDocument revokeOkState
  split
  case isTrue h => simp [h]
  case isFalse h => simp [h, eq_comm]

theorem revokeDocument_error_iff (st : ContractState) (sender : Address)
    (docHash : String) :
    (∃ e, revokeDocument st sender docHash = .error e) ↔
      (st.documents docHash).timestamp = 0 := by
  unfold revokeDocument
  split
  case isTrue h => simp [h]
  case isFalse h => simp [h]

/-! Claim theorems. -/

/-- C1: for every ledger state, `signDocument(id, metadataRef)` by caller `c`
fails if and only if the document does not exist, or is not active, or `c` is
not an element of the `signers` sequence (the membership the linear scan
decides), or `c` has already signed; on success it sets the `(id, c)`
signature to `signed = true` with the current time and the given metadata
reference and changes nothing else; and on every failure no Document or
Signature state changes. -/
theorem c1_signDocument_spec (st : ContractState) (c : Address) (now : Nat)
    (docHash ref : String) :
    ((∃ e, signDocument st c now docHash ref = .error e) ↔
      ((st.documents docHash).timestamp = 0 ∨
       (st.documents docHash).isActive = false ∨
       c ∉ (st.documents docHash).signers ∨
       ((st.documents docHash).signatures c).signed = true)) ∧
    (∀ st1, signDocument st c now docHash ref = .ok st1 →
      ((st1.documents docHash).signatures c = ⟨true, now, ref⟩ ∧
       (∀ a, a ≠ c →
         (st1.documents docHash).signatures a = (st.documents docHash).signatures a) ∧
       (st1.documents docHash).documentHash = (st.documents docHash).documentHash ∧
       (st1.documents docHash).signers = (st.documents docHash).signers ∧
       (st1.documents docHash).timestamp = (st.documents docHash).timestamp ∧
       (st1.documents docHash).isActive = (st.documents docHash).isActive ∧
       (∀ h, h ≠ docHash → st1.documents h = st.documents h) ∧
       st1.userDocuments = st.userDocuments)) ∧
    (∀ e, signDocument st c now docHash ref = .error e →
      signStep st c now docHash ref = st) := by
  refine ⟨?_, ?_, ?_⟩
  · rw [signDocument_error_iff]
    have hmem : authorizedScan (st.documents docHash).signers c = false ↔
        c ∉ (st.documents docHash).signers := by
      rw [← authorizedScan_iff]
      simp
    rw [hmem]
  · intro st1 h1
    obtain ⟨ht, ha, hs, hn, rfl⟩ :=
      (signDocument_ok_iff st st1 c now docHash ref).mp h1
    refine ⟨by simp [signOkState], ?_, by simp [signOkState], by simp [signOkState],
      by simp [signOkState], by simp [signOkState], ?_, by simp [signOkState]⟩
    · intro a haz
      simp [signOkState, haz]
    · intro h hh
      simp [signOkState, hh]
  · intro e he
    simp [signStep, he, runExcept]

/-- C1 witness: signing `doc1` as its declared signer `0xaaaa` at time 2
records exactly the signature `⟨true, 2, ""⟩`. -/
theorem c1_signDocument_spec_witness :
    (demoSigned.documents "doc1").signatures "0xaaaa" = ⟨true, 2, ""⟩ :=
  ((c1_signDocument_spec demoCreated "0xaaaa" 2 "doc1" "").2.1 demoSigned (by rfl)).1

/-- C2: `createDocument(id, signers)` fails if and only if the id already
exists or the signer list is empty; on success it stores the document with the
given signers, `active = true` and creation time `now`, appends the id to the
`getUserDocuments` index of the caller and changes nothing else; and (block
timestamps being positive) a second create with the same id always fails. -/
theorem c2_createDocument_spec (st : ContractState) (c : Address) (now : Nat)
    (docHash : String) (signers : List Address) (hnow : 0 < now) :
    ((∃ e, createDocument st c now docHash signers = .error e) ↔
      ((st.documents docHash).timestamp ≠ 0 ∨ signers = [])) ∧
    (∀ st1, createDocument st c now docHash signers = .ok st1 →
      ((st1.documents docHash).signers = signers ∧
       (st1.documents docHash).isActive = true ∧
       (st1.documents docHash).timestamp = now ∧
       (st1.documents docHash).documentHash = docHash ∧
       getUserDocuments st1 c = getUserDocuments st c ++ [docHash] ∧
       (∀ u, u ≠ c → getUserDocuments st1 u = getUserDocuments st u) ∧
       (∀ h, h ≠ docHash → st1.documents h = st.documents h) ∧
       (∀ c2 now2 signers2, ∃ e,
         createDocument st1 c2 now2 docHash signers2 = .error e))) := by
  refine ⟨createDocument_error_iff st c now docHash signers, ?_⟩
  intro st1 h1
  obtain ⟨h0, hs, rfl⟩ :=
    (createDocument_ok_iff st st1 c now docHash signers).mp h1
  refine ⟨by simp [createOkState], by simp [createOkState], by simp [createOkState],
    by simp [createOkState], by simp [createOkState, getUserDocuments], ?_, ?_, ?_⟩
  · intro u hu
    simp [createOkState, getUserDocuments, hu]
  · intro h hh
    simp [createOkState, hh]
  · intro c2 now2 signers2
    rw [createDocument_error_iff]
    left
    simp [createOkState]
    omega

/-- C2 witness: creating `doc1` from the empty ledger at time 1 records it in
the creator index, and the creation preconditions hold there. -/
theorem c2_createDocument_spec_witness :
    getUserDocuments demoCreated "0xcccc" =
      getUserDocuments ContractState.init "0xcccc" ++ ["doc1"] :=
  (((c2_createDocument_spec ContractState.init "0xcccc" 1 "doc1" ["0xaaaa"]
    (by decide)).2 demoCreated (by rfl)).2.2.2.2.1)

/-- C4: signing is idempotent-guarded — once a `signDocument` call for a
(document, signer) pair has succeeded, a second call for the same pair fails
with the `Already signed` conflict, and the ledger state after both calls
equals the state after the first call alone. -/
theorem c4_sign_idempotent_guard (st st1 : ContractState) (c : Address)
    (now1 now2 : Nat) (docHash ref1 ref2 : String)
    (h1 : signDocument st c now1 docHash ref1 = .ok st1) :
    signDocument st1 c now2 docHash ref2 = .error "Already signed" ∧
    signStep st1 c now2 docHash ref2 = st1 := by
  obtain ⟨ht, ha, hs, hn, rfl⟩ :=
    (signDocument_ok_iff st st1 c now1 docHash ref1).mp h1
  have hd : (signOkState st c now1 docHash ref1).documents docHash =
      { st.documents docHash with
        signatures := fun a =>
          if a = c then ⟨true, now1, ref1⟩
          else (st.documents docHash).signatures a } := by
    simp [signOkState]
  have he : signDocument (signOkState st c now1 docHash ref1) c now2 docHash ref2 =
      .error "Already signed" := by
    unfold signDocument
    rw [hd]
    simp [ht, ha, hs]
  exact ⟨he, by simp [signStep, he, runExcept]⟩

/-- C4 witness: after the recorded first signature on `doc1`, a second sign by
`0xaaaa` returns the conflict and leaves the ledger at the post-first-call
state. -/
theorem c4_sign_idempotent_guard_witness :
    signDocument demoSigned "0xaaaa" 3 "doc1" "x" = .error "Already signed" ∧
    signStep demoSigned "0xaaaa" 3 "doc1" "x" = demoSigned :=
  c4_sign_idempotent_guard demoCreated demoSigned "0xaaaa" 2 3 "doc1" "" "x" (by rfl)

/-- C5: `isFullySigned(id)` fails exactly when the document does not exist;
for an existing document it returns `true` if and only if every entry of the
`signers` sequence has a signature with `signed = true`. -/
theorem c5_isFullySigned_spec (st : ContractState) (docHash : String) :
    ((∃ e, isFullySigned st docHash = .error e) ↔
      (st.documents docHash).timestamp = 0) ∧
    (∀ b, isFullySigned st docHash = .ok b →
      (b = true ↔ ∀ s ∈ (st.documents docHash).signers,
        ((st.documents docHash).signatures s).signed = true)) := by
  constructor
  · unfold isFullySigned
    split
    case isTrue h => simp [h]
    case isFalse h => simp [h]
  · intro b hb
    unfold isFullySigned at hb
    split at hb
    case isTrue h => exact absurd hb (by simp)
    case isFalse h =>
      obtain rfl : allSignedScan (st.documents docHash).signatures
          (st.documents docHash).signers = b := by
        simpa using hb
      exact allSignedScan_iff (st.documents docHash).signatures
        (st.documents docHash).signers

/-- C5 witness: on the fully signed `doc1` the read succeeds with `true`, and
the equivalence instantiates to the signed status of each declared signer. -/
theorem c5_isFullySigned_spec_witness :
    isFullySigned demoSigned "doc1" = .ok true ∧
    (true = true ↔ ∀ s ∈ (demoSigned.documents "doc1").signers,
      ((demoSigned.documents "doc1").signatures s).signed = true) :=
  ⟨by rfl, (c5_isFullySigned_spec demoSigned "doc1").2 true (by rfl)⟩

/-- C6: `revokeDocument(id)` fails exactly when the id does not exist; for any
caller it sets `active = false` and changes nothing else — the signers
sequence and all signature records stay unchanged and readable (via
`getSignature`) — and afterwards every `signDocument` call on that document
fails with the document-inactive error. -/
theorem c6_revokeDocument_spec (st : ContractState) (sender : Address)
    (docHash : String) :
    ((∃ e, revokeDocument st sender docHash = .error e) ↔
      (st.documents docHash).timestamp = 0) ∧
    (∀ st1, revokeDocument st sender docHash = .ok st1 →
      ((st1.documents docHash).isActive = false ∧
       (st1.documents docHash).signers = (st.documents docHash).signers ∧
       (st1.documents docHash).signatures = (st.documents docHash).signatures ∧
       (st1.documents docHash).timestamp = (st.documents docHash).timestamp ∧
       (st1.documents docHash).documentHash = (st.documents docHash).documentHash ∧
       (∀ h, h ≠ docHash → st1.documents h = st.documents h) ∧
       st1.userDocuments = st.userDocuments ∧
       (∀ c now2 ref, signDocument st1 c now2 docHash ref =
         .error "Document is not active") ∧
       (∀ s, getSignature st1 docHash s =
         .ok ((st.documents docHash).signatures s)))) := by
  refine ⟨revokeDocument_error_iff st sender docHash, ?_⟩
  intro st1 h1
  obtain ⟨ht, rfl⟩ := (revokeDocument_ok_iff st st1 sender docHash).mp h1
  have hd : (revokeOkState st docHash).documents docHash =
      { st.documents docHash with isActive := false } := by
    simp [revokeOkState]
  refine ⟨by simp [revokeOkState], by simp [revokeOkState], by simp [revokeOkState],
    by simp [revokeOkState], by simp [revokeOkState], ?_, by simp [revokeOkState],
    ?_, ?_⟩
  · intro h hh
    simp [revokeOkState, hh]
  · intro c now2 ref
    unfold signDocument
    rw [hd]
    simp [ht]
  · intro s
    unfold getSignature
    rw [hd]
    simp [ht]

/-- C6 witness: revoking the signed `doc1` deactivates it, after which a fresh
sign attempt by the declared signer fails with the inactive error while the
recorded signature stays readable. -/
theorem c6_revokeDocument_spec_witness :
    (demoRevoked.documents "doc1").isActive = false ∧
    signDocument demoRevoked "0xdddd" 9 "doc1" "" =
      .error "Document is not active" ∧
    getSignature demoRevoked "doc1" "0xaaaa" =
      .ok ((demoSigned.documents "doc1").signatures "0xaaaa") := by
  have h := (c6_revokeDocument_spec demoSigned "0xbbbb" "doc1").2 demoRevoked (by rfl)
  exact ⟨h.1, h.2.2.2.2.2.2.2.1 "0xdddd" 9 "", h.2.2.2.2.2.2.2.2 "0xaaaa"⟩

/-- C7: `verifyDocumentSignature(id, signer)` never fails: a missing document
yields the explicit not-found triple `(false, 0, false)`, and an existing one
yields `(signed, signedAt, documentActive)` read from the signature record and
the document. -/
theorem c7_verifyDocumentSignature_total (st : ContractState) (docHash : String)
    (signer : Address) :
    ((st.documents docHash).timestamp = 0 →
      verifyDocumentSignature st docHash signer = (false, 0, false)) ∧
    ((st.documents docHash).timestamp ≠ 0 →
      verifyDocumentSignature st docHash signer =
        (((st.documents docHash).signatures signer).signed,
         ((st.documents docHash).signatures signer).timestamp,
         (st.documents docHash).isActive)) := by
  constructor <;> intro h <;> simp [verifyDocumentSignature, h]

/-- C7 witness: on the empty ledger the read returns the not-found triple; on
the signed `doc1` it returns the stored triple. -/
theorem c7_verifyDocumentSignature_total_witness :
    verifyDocumentSignature ContractState.init "doc1" "0xaaaa" = (false, 0, false) ∧
    verifyDocumentSignature demoSigned "doc1" "0xaaaa" =
      (((demoSigned.documents "doc1").signatures "0xaaaa").signed,
       ((demoSigned.documents "doc1").signatures "0xaaaa").timestamp,
       (demoSigned.documents "doc1").isActive) :=
  ⟨(c7_verifyDocumentSignature_total ContractState.init "doc1" "0xaaaa").1 (by rfl),
   (c7_verifyDocumentSignature_total demoSigned "doc1" "0xaaaa").2 (by decide)⟩

/-- C8: in the verify route, the aggregate `isFullyValid` is true exactly when
the number of per-signer entries with `isValid = true` equals the number of
required signers; one entry is produced per signer (failures do not abort the
loop), and a failed per-signer read is recorded as an invalid entry carrying
the error. -/
theorem c8_verifyFlow_aggregation (signers : List Address)
    (ver : Address → Except String (Bool × Nat × Bool)) (resp : VerifyResponse)
    (h : verifyFlow (.ok signers) ver = .ok resp) :
    resp.verificationResults.length = signers.length ∧
    (resp.isFullyValid = true ↔
      (resp.verificationResults.filter fun r => r.isValid).length = signers.length) ∧
    (∀ s ∈ signers, ∀ e, ver s = .error e →
      (⟨s, false, 0, false, some e⟩ : VerifyEntry) ∈ resp.verificationResults) := by
  unfold verifyFlow at h
  simp only [Except.ok.injEq] at h
  subst h
  refine ⟨by simp, by simp [beq_iff_eq], ?_⟩
  intro s hs e he
  refine List.mem_map.mpr ⟨s, hs, ?_⟩
  simp [verifyEntryFor, he]

/-- C8 witness: with one signer whose ledger read succeeds as valid, the
route produces one entry. -/
theorem c8_verifyFlow_aggregation_witness :
    (VerifyResponse.verificationResults
      ⟨true, 1, 1, [⟨"0xaaaa", true, 2, true, none⟩]⟩).length =
      (["0xaaaa"] : List Address).length :=
  (c8_verifyFlow_aggregation ["0xaaaa"] (serviceVerifySignature demoSigned "doc1")
    ⟨true, 1, 1, [⟨"0xaaaa", true, 2, true, none⟩]⟩ (by rfl)).1

/-- C9: `verifyDocumentSignature` reports `isValid = signed` and ignores the
active flag: after a successful sign and a subsequent revocation it still
returns `isValid = true` (with the signing time) and `documentActive = false`;
consequently the verify route can report `isFullyValid = true` for a revoked
document, the revocation visible only in the `documentActive` components. -/
theorem c9_verify_ignores_revocation (st st1 st2 : ContractState)
    (s sender2 : Address) (now : Nat) (docHash ref : String)
    (hsign : signDocument st s now docHash ref = .ok st1)
    (hrev : revokeDocument st1 sender2 docHash = .ok st2) :
    verifyDocumentSignature st2 docHash s = (true, now, false) ∧
    (∃ resp, verifyFlowOnLedger demoRevoked "doc1" = .ok resp ∧
      resp.isFullyValid = true ∧
      ∀ r ∈ resp.verificationResults, r.documentActive = false) := by
  constructor
  · obtain ⟨ht, ha, hsc, hn, rfl⟩ :=
      (signDocument_ok_iff st st1 s now docHash ref).mp hsign
    obtain ⟨ht2, rfl⟩ :=
      (revokeDocument_ok_iff (signOkState st s now docHash ref) st2 sender2
        docHash).mp hrev
    unfold verifyDocumentSignature
    simp [revokeOkState, signOkState, ht]
  · exact ⟨⟨true, 1, 1, [⟨"0xaaaa", true, 2, false, none⟩]⟩, by rfl, rfl, by decide⟩

/-- C9 witness: on the concrete create-sign-revoke scenario the ledger read
still validates the signature of `0xaaaa` while reporting the document
inactive. -/
theorem c9_verify_ignores_revocation_witness :
    verifyDocumentSignature demoRevoked "doc1" "0xaaaa" = (true, 2, false) :=
  (c9_verify_ignores_revocation demoCreated demoSigned demoRevoked "0xaaaa"
    "0xbbbb" 2 "doc1" "" (by rfl) (by rfl)).1

/-- One transaction preserves created-and-revoked: an existing inactive
document stays existing and inactive — `createDocument` rejects the existing
id, `signDocument` rejects the inactive document, `revokeDocument` keeps it
inactive, and operations on other ids do not touch its slot. -/
theorem step_preserves_revoked (st : ContractState) (docHash : String) (op : Op)
    (hex : (st.documents docHash).timestamp ≠ 0)
    (hin : (st.documents docHash).isActive = false) :
    ((step st op).documents docHash).timestamp ≠ 0 ∧
    ((step st op).documents docHash).isActive = false := by
  cases op with
  | create sender now h signers =>
    cases hc : createDocument st sender now h signers with
    | error e => simpa [step, runExcept, hc] using ⟨hex, hin⟩
    | ok st1 =>
      obtain ⟨h0, hne, rfl⟩ :=
        (createDocument_ok_iff st st1 sender now h signers).mp hc
      by_cases hh : h = docHash
      · subst hh
        exact absurd h0 hex
      · have hd : (createOkState st sender now h signers).documents docHash =
            st.documents docHash := by
          simp [createOkState, Ne.symm hh]
        simp only [step, runExcept, hc, hd]
        exact ⟨hex, hin⟩
  | sign sender now h ref =>
    cases hc : signDocument st sender now h ref with
    | error e => simpa [step, runExcept, hc] using ⟨hex, hin⟩
    | ok st1 =>
      obtain ⟨ht, ha, hsc, hn, rfl⟩ :=
        (signDocument_ok_iff st st1 sender now h ref).mp hc
      by_cases hh : h = docHash
      · subst hh
        rw [hin] at ha
        exact absurd ha (by simp)
      · have hd : (signOkState st sender now h ref).documents docHash =
            st.documents docHash := by
          simp [signOkState, Ne.symm hh]
        simp only [step, runExcept, hc, hd]
        exact ⟨hex, hin⟩
  | revoke sender h =>
    cases hc : revokeDocument st sender h with
    | error e => simpa [step, runExcept, hc] using ⟨hex, hin⟩
    | ok st1 =>
      obtain ⟨ht, rfl⟩ := (revokeDocument_ok_iff st st1 sender h).mp hc
      by_cases hh : h = docHash
      · subst hh
        have hd : (revokeOkState st h).documents h =
            { st.documents h with isActive := false } := by
          simp [revokeOkState]
        simp only [step, runExcept, hc, hd]
        exact ⟨hex, trivial⟩
      · have hd : (revokeOkState st h).documents docHash =
            st.documents docHash := by
          simp [revokeOkState, Ne.symm hh]
        simp only [step, runExcept, hc, hd]
        exact ⟨hex, hin⟩

/-- C10: revocation is permanent — once a document exists and its active flag
is `false`, no sequence of further transactions (creates, signs, revocations,
by any callers) can ever make the flag `true` again: `createDocument` is the
only writer of `active = true` and it cannot run again for an existing id. -/
theorem c10_revocation_permanent (st : ContractState) (docHash : String)
    (hex : (st.documents docHash).timestamp ≠ 0)
    (hin : (st.documents docHash).isActive = false) :
    ∀ ops : List Op,
      ((run st ops).documents docHash).timestamp ≠ 0 ∧
      ((run st ops).documents docHash).isActive = false := by
  intro ops
  induction ops generalizing st with
  | nil => exact ⟨hex, hin⟩
  | cons op rest ih =>
    rw [run]
    obtain ⟨hex1, hin1⟩ := step_preserves_revoked st docHash op hex hin
    exact ih (step st op) hex1 hin1

/-- C10 witness: after revoking `doc1`, re-creating it, signing it and
revoking it again all leave it inactive. -/
theorem c10_revocation_permanent_witness :
    ((run demoRevoked
        [.create "0xeeee" 7 "doc1" ["0xeeee"], .sign "0xaaaa" 8 "doc1" "",
         .revoke "0xeeee" "doc1"]).documents "doc1").isActive = false :=
  (c10_revocation_permanent demoRevoked "doc1" (by decide) (by rfl)
    [.create "0xeeee" 7 "doc1" ["0xeeee"], .sign "0xaaaa" 8 "doc1" "",
     .revoke "0xeeee" "doc1"]).2

/-- C3: the sign route authorizes the authenticated user but submits the
ledger mutation from the fixed service wallet, so the on-chain signer is the
service identity, not the user.  Concretely: with `docb` declaring only the
user `0xaaaa` and the service wallet being `0xbbbb`, the user passes the
authorization and idempotency checks of the coordinator, yet the ledger call
reverts with the authorization error made against the service wallet and no
signature for `0xaaaa` is recorded; and on a ledger where the service wallet
is itself declared, the flow reports success attributed to the user while the
ledger records the signature under the service wallet and leaves the user
unsigned. -/
theorem c3_sign_attribution_code_bug :
    ("0xaaaa" : Address) ≠ "0xbbbb" ∧
    signFlow bugLedger "0xbbbb" "0xaaaa" 2 "docb" "" =
      (.blockchainFailure "Not authorized to sign this document", bugLedger) ∧
    ((bugLedger.documents "docb").signatures "0xaaaa").signed = false ∧
    signFlow bugLedgerBoth "0xbbbb" "0xaaaa" 2 "docb" "" =
      (.accepted "0xaaaa", bugResultState) ∧
    ((bugResultState.documents "docb").signatures "0xaaaa").signed = false ∧
    (bugResultState.documents "docb").signatures "0xbbbb" = ⟨true, 2, ""⟩ := by
  exact ⟨by decide, by rfl, by rfl, by rfl, by rfl, by rfl⟩

end DocSig
